import Mathlib

/-!
# Verification of the boltstub connection channel

Shallow embedding of `src/boltstub/channel.py`: the `Channel` class that
performs the Bolt handshake, frames and buffers incoming client messages,
and supports single-message lookahead with conditional automatic replies.

External collaborators (the wire transport, the PackStream frame codec, the
protocol dialect table and the log sink) are modelled through narrow
interfaces: the transport is a list of raw bytes plus a list of decoded
frames, the dialect table is a record of functions, and every observable
interaction (wire reads/writes/flushes, frame reads/writes, decode calls,
log calls) is recorded in an explicit event trace.
-/

/-- Raw byte strings: lists of naturals (each byte is < 256 where it matters). -/
abbrev Bytes := List Nat

/-- The magic header `b"\x60\x60\xb0\x17"` checked by `_test_magic_bytes`. -/
def magicBytes : Bytes := [0x60, 0x60, 0xb0, 0x17]

/-- A decoded PackStream structure / translated client message.  The only
field the channel itself inspects is the discriminator `name` (used by
`try_auto_consume`); `fields` stands for the rest of the payload. -/
structure Struct where
  name : String
  fields : List Nat
deriving DecidableEq, Repr

/-- The protocol dialect table bound at construction by
`get_bolt_protocol(bolt_version)`.  Its members are external collaborators;
the channel is generic over them. -/
structure BoltProtocol where
  protocol_version : Nat × Nat
  decode_versions : Bytes → List (Nat × Nat)
  translate_structure : Struct → Struct
  translate_server_line : String → Struct
  get_auto_response : Struct → Struct

/-- One observable interaction with an external collaborator. -/
inductive Event where
  /-- `wire.read(n)` was invoked. -/
  | readWire (n : Nat)
  /-- `wire.write(bs)` was invoked. -/
  | writeWire (bs : Bytes)
  /-- `wire.send()` (flush) was invoked. -/
  | sendWire
  /-- `stream.read_message()` consumed one frame holding `s`. -/
  | readFrame (s : Struct)
  /-- `stream.write_message(s)` staged one frame. -/
  | writeFrame (s : Struct)
  /-- `stream.drain()` flushed the staged frames. -/
  | drain
  /-- the log callback was invoked once. -/
  | logCall
  /-- `bolt_protocol.decode_versions(bs)` was invoked. -/
  | decodeCall (bs : Bytes)
deriving DecidableEq, Repr

/-- What `ServerExit` is raised with, kept structured: the Python code
formats these via `hex_repr` into the exception message. -/
inductive ServerExitReason where
  /-- wrong magic header: carries the expected and the received bytes. -/
  | protocolMismatch (expected received : Bytes)
  /-- unsupported version: carries the supported version and the raw
  16-byte requested-versions payload. -/
  | handshakeRejected (version : Nat × Nat) (request : Bytes)
deriving DecidableEq, Repr

/-- Errors a channel operation can raise. -/
inductive Err where
  | serverExit (r : ServerExitReason)
  /-- Python `TypeError`: `self.log(...)` was called while `self.log is None`. -/
  | typeErrorLogNotCallable
  /-- the transport could not deliver the requested bytes / frame. -/
  | transportError
  /-- Python `ValueError` from `bytes(...)` on an out-of-range element. -/
  | valueError
deriving DecidableEq, Repr

/-- The state of one `Channel` instance together with its transport.
`inBytes` are the raw bytes the wire will yield to `wire.read`; `inMsgs`
are the decoded structures `stream.read_message` will yield, in order. -/
structure Channel where
  inBytes : Bytes
  inMsgs : List Struct
  /-- presence of the `log_cb` callback (`None` in Python is `none` here). -/
  log : Option Unit
  handshake_data : Option Bytes
  bolt_protocol : BoltProtocol
  buffered_msg : Option Struct

/-- Result of one channel operation: the returned value or raised error,
the updated channel/transport state, and the trace of external events. -/
structure Res (α : Type) where
  val : Except Err α
  ch : Channel
  events : List Event

/-- `wire.read(n)`: blocking read that returns exactly `n` bytes or fails
with a fatal transport error. -/
def wireRead (n : Nat) (ch : Channel) : Res Bytes :=
  if n ≤ ch.inBytes.length then
    ⟨.ok (ch.inBytes.take n), { ch with inBytes := ch.inBytes.drop n }, [.readWire n]⟩
  else
    ⟨.error .transportError, ch, [.readWire n]⟩

/-- `Channel._log(...)`: invokes the callback only when present, so logging
is a no-op without a logger.  Returns the log events it emits. -/
def Channel._log (ch : Channel) : List Event :=
  match ch.log with
  | some _ => [.logCall]
  | none => []

/-- A direct `self.log(...)` call, as written in `send_raw`, `send_struct`,
`send_server_line`, `consume` and `try_auto_consume`: unlike `_log` it is
unguarded, so with `log_cb=None` it raises `TypeError` (None not callable). -/
def Channel.logDirect (ch : Channel) : Except Err Unit × List Event :=
  match ch.log with
  | some _ => (.ok (), [.logCall])
  | none => (.error .typeErrorLogNotCallable, [])

/-- `Channel._test_magic_bytes(request)`: log the 4 received bytes, then
fail with a protocol-mismatch `ServerExit` unless they equal `60 60 B0 17`. -/
def Channel._test_magic_bytes (ch : Channel) (request : Bytes) :
    Except Err Unit × List Event :=
  let ev := Channel._log ch
  if request = magicBytes then
    (.ok (), ev)
  else
    (.error (.serverExit (.protocolMismatch magicBytes request)), ev)

/-- `Channel.handshake()`: read all 20 handshake bytes in one `wire.read(20)`,
check the first 4 against the magic header, then either answer with the
configured override (`handshake_data`) verbatim, or negotiate: decode the
16-byte requested-versions payload and answer `(0, 0, minor, major)` if the
supported version is proposed, else send four zero bytes and fail. -/
def Channel.handshake (ch : Channel) : Res Unit :=
  match wireRead 20 ch with
  | ⟨.error e, ch1, ev0⟩ => ⟨.error e, ch1, ev0⟩
  | ⟨.ok request, ch1, ev0⟩ =>
    match Channel._test_magic_bytes ch1 (request.take 4) with
    | (.error e, ev1) => ⟨.error e, ch1, ev0 ++ ev1⟩
    | (.ok _, ev1) =>
      let request := request.drop 4
      let ev2 := Channel._log ch1
      let evs := ev0 ++ ev1 ++ ev2
      match ch1.handshake_data with
      | some response =>
        ⟨.ok (), ch1, evs ++ [.writeWire response, .sendWire] ++ Channel._log ch1⟩
      | none =>
        let supported_version := ch1.bolt_protocol.protocol_version
        let requested_versions := ch1.bolt_protocol.decode_versions request
        let evs := evs ++ [.decodeCall request]
        if supported_version ∈ requested_versions then
          if supported_version.1 < 256 ∧ supported_version.2 < 256 then
            ⟨.ok (), ch1,
              evs ++ [.writeWire [0, 0, supported_version.2, supported_version.1],
                .sendWire] ++ Channel._log ch1⟩
          else
            ⟨.error .valueError, ch1, evs⟩
        else
          ⟨.error (.serverExit (.handshakeRejected supported_version request)), ch1,
            evs ++ [.writeWire [0, 0, 0, 0], .sendWire]⟩

/-- `Channel.send_raw(b)`: log (unguarded), write the opaque bytes, flush. -/
def Channel.send_raw (ch : Channel) (b : Bytes) : Res Unit :=
  match Channel.logDirect ch with
  | (.error e, ev) => ⟨.error e, ch, ev⟩
  | (.ok _, ev) => ⟨.ok (), ch, ev ++ [.writeWire b, .sendWire]⟩

/-- `Channel.send_struct(struct)`: log (unguarded), write one frame, drain. -/
def Channel.send_struct (ch : Channel) (struct : Struct) : Res Unit :=
  match Channel.logDirect ch with
  | (.error e, ev) => ⟨.error e, ch, ev⟩
  | (.ok _, ev) => ⟨.ok (), ch, ev ++ [.writeFrame struct, .drain]⟩

/-- `Channel.send_server_line(server_line)`: log (unguarded), translate the
scripted line through the dialect table, write one frame, drain. -/
def Channel.send_server_line (ch : Channel) (server_line : String) : Res Unit :=
  match Channel.logDirect ch with
  | (.error e, ev) => ⟨.error e, ch, ev⟩
  | (.ok _, ev) =>
    ⟨.ok (), ch,
      ev ++ [.writeFrame (ch.bolt_protocol.translate_server_line server_line), .drain]⟩

/-- `Channel._consume()`: read one frame from the codec and translate it via
the dialect table.  Fails with a transport error when no frame is available. -/
def Channel._consume (ch : Channel) : Res Struct :=
  match ch.inMsgs with
  | [] => ⟨.error .transportError, ch, []⟩
  | m :: rest =>
    ⟨.ok (ch.bolt_protocol.translate_structure m),
      { ch with inMsgs := rest }, [.readFrame m]⟩

/-- `Channel.consume()`: if a message is buffered, log it (unguarded),
clear the slot and return it; otherwise read a fresh frame directly. -/
def Channel.consume (ch : Channel) : Res Struct :=
  match ch.buffered_msg with
  | some msg =>
    match Channel.logDirect ch with
    | (.error e, ev) => ⟨.error e, ch, ev⟩
    | (.ok _, ev) => ⟨.ok msg, { ch with buffered_msg := none }, ev⟩
  | none => Channel._consume ch

/-- `Channel.peek()`: fill the buffered-message slot from the transport if
it is empty, and return the buffered message. -/
def Channel.peek (ch : Channel) : Res Struct :=
  match ch.buffered_msg with
  | some m => ⟨.ok m, ch, []⟩
  | none =>
    match Channel._consume ch with
    | ⟨.error e, ch1, ev⟩ => ⟨.error e, ch1, ev⟩
    | ⟨.ok m, ch1, ev⟩ => ⟨.ok m, { ch1 with buffered_msg := some m }, ev⟩

/-- `Channel.try_auto_consume(whitelist)`: peek at the next message; if its
name is whitelisted, commit the consume (clear the slot), log twice
(unguarded), send the dialect table's auto-response through the struct send
path and return `true`; otherwise leave the message pending and return
`false`. -/
def Channel.try_auto_consume (ch : Channel) (whitelist : List String) : Res Bool :=
  match Channel.peek ch with
  | ⟨.error e, ch1, ev⟩ => ⟨.error e, ch1, ev⟩
  | ⟨.ok next_msg, ch1, ev⟩ =>
    if next_msg.name ∈ whitelist then
      let ch2 := { ch1 with buffered_msg := none }
      match Channel.logDirect ch2 with
      | (.error e, ev2) => ⟨.error e, ch2, ev ++ ev2⟩
      | (.ok _, ev2) =>
        match Channel.logDirect ch2 with
        | (.error e, ev3) => ⟨.error e, ch2, ev ++ ev2 ++ ev3⟩
        | (.ok _, ev3) =>
          match Channel.send_struct ch2 (ch2.bolt_protocol.get_auto_response next_msg) with
          | ⟨.error e, ch3, ev4⟩ => ⟨.error e, ch3, ev ++ ev2 ++ ev3 ++ ev4⟩
          | ⟨.ok _, ch3, ev4⟩ => ⟨.ok true, ch3, ev ++ ev2 ++ ev3 ++ ev4⟩
    else
      ⟨.ok false, ch1, ev⟩

/-- Number of frames read from the transport in a trace. -/
def frameReads (evs : List Event) : Nat :=
  (evs.filter fun e => match e with | .readFrame _ => true | _ => false).length

/-- The raw byte payloads written to the wire in a trace, in order. -/
def wireWrites (evs : List Event) : List Bytes :=
  evs.filterMap fun e => match e with | .writeWire bs => some bs | _ => none

/-- The frames written through the codec in a trace, in order. -/
def frameWrites (evs : List Event) : List Struct :=
  evs.filterMap fun e => match e with | .writeFrame s => some s | _ => none

/-- Number of `decode_versions` invocations in a trace. -/
def decodeCalls (evs : List Event) : Nat :=
  (evs.filter fun e => match e with | .decodeCall _ => true | _ => false).length

/-- One intermediate lookahead call in a consume/peek/auto-consume
sequence: a `peek()` or a `try_auto_consume(whitelist)`. -/
inductive MidCall where
  | peekCall
  | autoCall (wl : List String)
deriving DecidableEq, Repr

/-- The state/trace effect of one intermediate call. -/
def midStep (ch : Channel) : MidCall → Channel × List Event
  | .peekCall => ((Channel.peek ch).ch, (Channel.peek ch).events)
  | .autoCall wl =>
    ((Channel.try_auto_consume ch wl).ch, (Channel.try_auto_consume ch wl).events)

/-- Run a sequence of intermediate calls, collecting the overall trace. -/
def runMids (ch : Channel) : List MidCall → Channel × List Event
  | [] => (ch, [])
  | c :: cs =>
    ((runMids (midStep ch c).1 cs).1,
      (midStep ch c).2 ++ (runMids (midStep ch c).1 cs).2)

/-- A concrete dialect table used for concrete runs: supported version
`(4, 0)`, a simple versions decoder reading the first two bytes, identity
structure translation, and a fixed auto-response shape. -/
def testProtocol : BoltProtocol where
  protocol_version := (4, 0)
  decode_versions := fun bs => [(bs.headD 0, (bs.drop 1).headD 0)]
  translate_structure := fun s => s
  translate_server_line := fun l => ⟨l, []⟩
  get_auto_response := fun m => ⟨"Success", m.fields⟩

/-- Build a channel over `testProtocol`. -/
def mkChannel (inB : Bytes) (inM : List Struct) (lg : Option Unit)
    (hs : Option Bytes) (buf : Option Struct) : Channel :=
  { inBytes := inB, inMsgs := inM, log := lg, handshake_data := hs,
    bolt_protocol := testProtocol, buffered_msg := buf }

/-- A pending client message named "Hello". -/
def helloMsg : Struct := ⟨"Hello", [7]⟩

/-- A pending client message named "Run". -/
def runMsg : Struct := ⟨"Run", [3]⟩

/-- A 20-byte stream whose first 4 bytes are not the magic header. -/
def c2Stream : Bytes :=
  [0, 0, 0, 0, 1, 2, 3, 4, 5, 6, 7, 8, 9, 10, 11, 12, 13, 14, 15, 16]

/-- Transport bytes for the C3 end-to-end scenario: magic header followed
by 16 bytes whose decoding (under `testProtocol`) proposes version (4, 0). -/
def c3Bytes : Bytes :=
  magicBytes ++ [4, 0, 0, 0, 0, 0, 0, 0, 0, 0, 0, 0, 0, 0, 0, 0]

/-- The C3 end-to-end channel: supported version (4, 0), no override. -/
def c3Chan : Channel := mkChannel c3Bytes [] (some ()) none none

/-- Transport bytes proposing only version (9, 9), which `testProtocol`
(supported version (4, 0)) rejects. -/
def c4Bytes : Bytes :=
  magicBytes ++ [9, 9, 0, 0, 0, 0, 0, 0, 0, 0, 0, 0, 0, 0, 0, 0]

/-- The C4 channel: supported version (4, 0), proposal (9, 9) only. -/
def c4Chan : Channel := mkChannel c4Bytes [] (some ()) none none

/-- The override response bytes of the C5 scenario: `AA BB CC DD`. -/
def overrideBytes : Bytes := [0xAA, 0xBB, 0xCC, 0xDD]

/-- The C5 channel: override `AA BB CC DD` configured, arbitrary payload. -/
def c5Chan : Channel := mkChannel c4Bytes [] (some ()) (some overrideBytes) none

/-- The C10 channel: override configured but wrong magic bytes on the wire. -/
def c10Chan : Channel := mkChannel c2Stream [] (some ()) (some overrideBytes) none

/-- A channel with two pending frames and a logger, used by the buffering
witnesses; its slot is empty. -/
def peekChan : Channel := mkChannel [] [helloMsg, runMsg] (some ()) none none

/-- The state of `peekChan` after one successful `peek()`: the "Hello"
message sits in the slot and one frame has left the transport. -/
def peekChan1 : Channel := mkChannel [] [runMsg] (some ()) none (some helloMsg)

/-! ## Inversion and preservation lemmas for the buffering state machine -/

lemma peek_ok_inv (ch : Channel) (m : Struct) (ch1 : Channel) (ev : List Event)
    (h : Channel.peek ch = ⟨.ok m, ch1, ev⟩) :
    (ch.buffered_msg = some m ∧ ch1 = ch ∧ ev = []) ∨
    (ch.buffered_msg = none ∧ ∃ hd rest, ch.inMsgs = hd :: rest ∧
      m = ch.bolt_protocol.translate_structure hd ∧
      ch1 = { ch with inMsgs := rest, buffered_msg := some m } ∧
      ev = [.readFrame hd]) := by
  cases hb : ch.buffered_msg with
  | some m0 =>
    left
    simp only [Channel.peek, hb] at h
    obtain ⟨h1, h2, h3⟩ := Res.mk.inj h
    cases h1
    exact ⟨rfl, h2.symm, h3.symm⟩
  | none =>
    right
    cases hm : ch.inMsgs with
    | nil =>
      simp only [Channel.peek, Channel._consume, hb, hm] at h
      exact absurd (Res.mk.inj h).1 (by simp)
    | cons hd rest =>
      simp only [Channel.peek, Channel._consume, hb, hm] at h
      obtain ⟨h1, h2, h3⟩ := Res.mk.inj h
      cases h1
      exact ⟨rfl, hd, rest, rfl, rfl, h2.symm, h3.symm⟩

lemma peek_of_buffered (ch : Channel) (m : Struct) (hb : ch.buffered_msg = some m) :
    Channel.peek ch = ⟨.ok m, ch, []⟩ := by
  simp only [Channel.peek, hb]

lemma peek_ok_buf (ch : Channel) (m : Struct) (ch1 : Channel) (ev : List Event)
    (h : Channel.peek ch = ⟨.ok m, ch1, ev⟩) : ch1.buffered_msg = some m := by
  rcases peek_ok_inv ch m ch1 ev h with ⟨hb, rfl, rfl⟩ | ⟨_, hd, rest, _, _, rfl, _⟩
  · exact hb
  · rfl

lemma peek_ok_log (ch : Channel) (m : Struct) (ch1 : Channel) (ev : List Event)
    (h : Channel.peek ch = ⟨.ok m, ch1, ev⟩) : ch1.log = ch.log := by
  rcases peek_ok_inv ch m ch1 ev h with ⟨hb, rfl, rfl⟩ | ⟨_, hd, rest, _, _, rfl, _⟩
  · rfl
  · rfl

lemma mids_fixed (ch1 : Channel) (m : Struct) (hb : ch1.buffered_msg = some m)
    (calls : List MidCall)
    (hcalls : ∀ wl, MidCall.autoCall wl ∈ calls → m.name ∉ wl) :
    runMids ch1 calls = (ch1, []) := by
  induction calls with
  | nil => rfl
  | cons c cs ih =>
    have hpk : Channel.peek ch1 = ⟨.ok m, ch1, []⟩ := peek_of_buffered ch1 m hb
    have hstep : midStep ch1 c = (ch1, []) := by
      cases c with
      | peekCall => simp [midStep, hpk]
      | autoCall wl =>
        have hnotin : m.name ∉ wl := hcalls wl (by simp)
        simp [midStep, Channel.try_auto_consume, hpk, hnotin]
    have ih2 := ih (fun wl hm => hcalls wl (List.mem_cons_of_mem _ hm))
    simp [runMids, hstep, ih2]

/-! ## C1: logging without a logger -/

/-- C1: the claim that every public operation of a logger-less channel
completes without error, with logging a no-op, fails on the code: the
operations that call `self.log(...)` directly (`send_raw`, `send_struct`,
`send_server_line`, `consume` on a buffered message, `try_auto_consume` on
a whitelisted message) raise `TypeError` when `log_cb` is absent, while the
same calls succeed when a logger is present; only the operations routed
through the guarded `_log` (`handshake`, `peek`, the unbuffered `consume`)
are unaffected. -/
theorem C1_no_logger_crashes :
    (Channel.send_raw (mkChannel [] [] none none none) [0]).val =
      .error .typeErrorLogNotCallable ∧
    (Channel.send_raw (mkChannel [] [] (some ()) none none) [0]).val = .ok () ∧
    (Channel.send_struct (mkChannel [] [] none none none) helloMsg).val =
      .error .typeErrorLogNotCallable ∧
    (Channel.send_struct (mkChannel [] [] (some ()) none none) helloMsg).val = .ok () ∧
    (Channel.send_server_line (mkChannel [] [] none none none) "line").val =
      .error .typeErrorLogNotCallable ∧
    (Channel.send_server_line (mkChannel [] [] (some ()) none none) "line").val = .ok () ∧
    (Channel.consume (mkChannel [] [] none none (some helloMsg))).val =
      .error .typeErrorLogNotCallable ∧
    (Channel.consume (mkChannel [] [] (some ()) none (some helloMsg))).val =
      .ok helloMsg ∧
    (Channel.try_auto_consume (mkChannel [] [] none none (some helloMsg))
      ["Hello"]).val = .error .typeErrorLogNotCallable ∧
    (Channel.try_auto_consume (mkChannel [] [] (some ()) none (some helloMsg))
      ["Hello"]).val = .ok true ∧
    (Channel.peek (mkChannel [] [helloMsg] none none none)).val = .ok helloMsg := by
  refine ⟨rfl, rfl, rfl, rfl, rfl, rfl, rfl, rfl, rfl, rfl, rfl⟩

/-! ## C2: protocol mismatch on bad magic bytes -/

/-- C2 counterexample: on a 20-byte stream with wrong magic bytes,
`handshake()` does fail with a Protocol Mismatch error, but only after the
whole 20-byte handshake has been consumed from the transport: the 16
requested-versions bytes are no longer on the wire afterwards, refuting
"before reading the remaining 16 bytes". -/
theorem C2_counterexample :
    (Channel.handshake (mkChannel c2Stream [] (some ()) none none)).val =
      .error (.serverExit (.protocolMismatch magicBytes [0, 0, 0, 0])) ∧
    (Channel.handshake (mkChannel c2Stream [] (some ()) none none)).ch.inBytes = [] ∧
    ¬ (Channel.handshake (mkChannel c2Stream [] (some ()) none none)).ch.inBytes =
        c2Stream.drop 4 := by
  refine ⟨rfl, rfl, by decide⟩

/-- C2 (amended): for every input stream of at least 20 bytes whose first
4 bytes differ from `60 60 B0 17`, `handshake()` fails with a Protocol
Mismatch error reporting both the expected and the received bytes, and it
does so after having consumed all 20 handshake bytes from the transport
(the magic check precedes any use of the versions payload, but the payload
has already been read). -/
theorem C2_mismatch_after_full_read (ch : Channel)
    (hlen : 20 ≤ ch.inBytes.length) (hmagic : ch.inBytes.take 4 ≠ magicBytes) :
    (Channel.handshake ch).val =
      .error (.serverExit (.protocolMismatch magicBytes (ch.inBytes.take 4))) ∧
    (Channel.handshake ch).ch.inBytes = ch.inBytes.drop 20 := by
  have htake : (ch.inBytes.take 20).take 4 = ch.inBytes.take 4 := by
    rw [List.take_take]
    norm_num
  unfold Channel.handshake wireRead Channel._test_magic_bytes
  simp only [hlen, if_true, htake, hmagic, if_false]
  exact ⟨trivial, trivial⟩

/-- Witness for `C2_mismatch_after_full_read` at the concrete stream
`c2Stream`. -/
theorem C2_mismatch_after_full_read_witness :
    (Channel.handshake (mkChannel c2Stream [] (some ()) none none)).val =
      .error (.serverExit (.protocolMismatch magicBytes
        ((mkChannel c2Stream [] (some ()) none none).inBytes.take 4))) ∧
    (Channel.handshake (mkChannel c2Stream [] (some ()) none none)).ch.inBytes =
      (mkChannel c2Stream [] (some ()) none none).inBytes.drop 20 :=
  C2_mismatch_after_full_read (mkChannel c2Stream [] (some ()) none none)
    (by decide) (by decide)

/-! ## C3, C4, C5, C10: handshake negotiation -/

/-- C3: with correct magic bytes, no override response, and the supported
version (with byte-sized major/minor) among the decoded requested versions,
`handshake()` succeeds and the only payload written to the wire is the
4-byte response `(0, 0, minor, major)` — minor before major. -/
theorem C3_negotiation_success (ch : Channel)
    (hhs : ch.handshake_data = none)
    (hlen : 20 ≤ ch.inBytes.length)
    (hmagic : ch.inBytes.take 4 = magicBytes)
    (hmem : ch.bolt_protocol.protocol_version ∈
      ch.bolt_protocol.decode_versions ((ch.inBytes.take 20).drop 4))
    (hmaj : ch.bolt_protocol.protocol_version.1 < 256)
    (hmin : ch.bolt_protocol.protocol_version.2 < 256) :
    (Channel.handshake ch).val = .ok () ∧
    wireWrites (Channel.handshake ch).events =
      [[0, 0, ch.bolt_protocol.protocol_version.2,
        ch.bolt_protocol.protocol_version.1]] := by
  have htake : (ch.inBytes.take 20).take 4 = ch.inBytes.take 4 := by
    rw [List.take_take]
    norm_num
  unfold Channel.handshake wireRead Channel._test_magic_bytes
  simp only [hlen, if_true, htake, hmagic, hhs]
  cases hl : ch.log <;>
    simp [Channel._log, hl, wireWrites, hmem, hmaj, hmin]

/-- Witness for `C3_negotiation_success`: with supported version (4, 0) the
response written is exactly `00 00 00 04`. -/
theorem C3_negotiation_success_witness :
    (Channel.handshake c3Chan).val = .ok () ∧
    wireWrites (Channel.handshake c3Chan).events =
      [[0, 0, c3Chan.bolt_protocol.protocol_version.2,
        c3Chan.bolt_protocol.protocol_version.1]] :=
  C3_negotiation_success c3Chan rfl (by decide) (by decide) (by decide)
    (by decide) (by decide)

/-- C4: with correct magic bytes, no override response, and the supported
version absent from the decoded requested versions, `handshake()` writes
the all-zero 4-byte response (and nothing else), flushes it, and fails with
a Handshake Rejected error reporting the unsupported version and the raw
requested-versions bytes. -/
theorem C4_handshake_rejected (ch : Channel)
    (hhs : ch.handshake_data = none)
    (hlen : 20 ≤ ch.inBytes.length)
    (hmagic : ch.inBytes.take 4 = magicBytes)
    (hmem : ch.bolt_protocol.protocol_version ∉
      ch.bolt_protocol.decode_versions ((ch.inBytes.take 20).drop 4)) :
    (Channel.handshake ch).val =
      .error (.serverExit (.handshakeRejected ch.bolt_protocol.protocol_version
        ((ch.inBytes.take 20).drop 4))) ∧
    wireWrites (Channel.handshake ch).events = [[0, 0, 0, 0]] ∧
    ∃ evs0, (Channel.handshake ch).events =
      evs0 ++ [.writeWire [0, 0, 0, 0], .sendWire] := by
  have htake : (ch.inBytes.take 20).take 4 = ch.inBytes.take 4 := by
    rw [List.take_take]
    norm_num
  unfold Channel.handshake wireRead Channel._test_magic_bytes
  simp only [hlen, if_true, htake, hmagic, hhs, hmem, if_false]
  cases hl : ch.log
  · simp [Channel._log, hl, wireWrites, hmem]
    exact ⟨[Event.readWire 20, Event.decodeCall _], rfl⟩
  · simp [Channel._log, hl, wireWrites, hmem]
    exact ⟨[Event.readWire 20, Event.logCall, Event.logCall,
      Event.decodeCall _], rfl⟩

/-- Witness for `C4_handshake_rejected` at the concrete proposal (9, 9). -/
theorem C4_handshake_rejected_witness :
    (Channel.handshake c4Chan).val =
      .error (.serverExit (.handshakeRejected c4Chan.bolt_protocol.protocol_version
        ((c4Chan.inBytes.take 20).drop 4))) ∧
    wireWrites (Channel.handshake c4Chan).events = [[0, 0, 0, 0]] ∧
    ∃ evs0, (Channel.handshake c4Chan).events =
      evs0 ++ [.writeWire [0, 0, 0, 0], .sendWire] :=
  C4_handshake_rejected c4Chan rfl (by decide) (by decide) (by decide)

/-- C5: with an override handshake response configured and correct magic
bytes, `handshake()` succeeds, the only payload written to the wire is the
override bytes verbatim, and `decode_versions` (the version-membership
negotiation) is never invoked — for every 16-byte versions payload. -/
theorem C5_override_verbatim (ch : Channel) (d : Bytes)
    (hhs : ch.handshake_data = some d)
    (hlen : 20 ≤ ch.inBytes.length)
    (hmagic : ch.inBytes.take 4 = magicBytes) :
    (Channel.handshake ch).val = .ok () ∧
    wireWrites (Channel.handshake ch).events = [d] ∧
    decodeCalls (Channel.handshake ch).events = 0 := by
  have htake : (ch.inBytes.take 20).take 4 = ch.inBytes.take 4 := by
    rw [List.take_take]
    norm_num
  unfold Channel.handshake wireRead Channel._test_magic_bytes
  simp only [hlen, if_true, htake, hmagic, hhs]
  cases hl : ch.log <;>
    simp [Channel._log, hl, wireWrites, decodeCalls]

/-- Witness for `C5_override_verbatim`: exactly `AA BB CC DD` is sent. -/
theorem C5_override_verbatim_witness :
    (Channel.handshake c5Chan).val = .ok () ∧
    wireWrites (Channel.handshake c5Chan).events = [overrideBytes] ∧
    decodeCalls (Channel.handshake c5Chan).events = 0 :=
  C5_override_verbatim c5Chan overrideBytes rfl (by decide) (by decide)

/-- C10: even with an override response configured, `handshake()` consumes
the full 20 handshake bytes from the transport, and when the first 4 bytes
are not the magic header it fails with Protocol Mismatch (reporting the
expected and received bytes) without ever writing the override. -/
theorem C10_override_still_validates_magic (ch : Channel) (d : Bytes)
    (hhs : ch.handshake_data = some d)
    (hlen : 20 ≤ ch.inBytes.length) :
    (Channel.handshake ch).ch.inBytes = ch.inBytes.drop 20 ∧
    (ch.inBytes.take 4 ≠ magicBytes →
      (Channel.handshake ch).val =
        .error (.serverExit (.protocolMismatch magicBytes (ch.inBytes.take 4))) ∧
      wireWrites (Channel.handshake ch).events = []) := by
  have htake : (ch.inBytes.take 20).take 4 = ch.inBytes.take 4 := by
    rw [List.take_take]
    norm_num
  by_cases hm : ch.inBytes.take 4 = magicBytes
  · unfold Channel.handshake wireRead Channel._test_magic_bytes
    simp only [hlen, if_true, htake, hm, hhs]
    cases hl : ch.log <;> simp [Channel._log, hl]
  · unfold Channel.handshake wireRead Channel._test_magic_bytes
    simp only [hlen, if_true, htake, hm, if_false]
    cases hl : ch.log <;> simp [Channel._log, hl, wireWrites]

/-- Witness for `C10_override_still_validates_magic` at a bad-magic stream. -/
theorem C10_override_still_validates_magic_witness :
    (Channel.handshake c10Chan).ch.inBytes = c10Chan.inBytes.drop 20 ∧
    (c10Chan.inBytes.take 4 ≠ magicBytes →
      (Channel.handshake c10Chan).val =
        .error (.serverExit (.protocolMismatch magicBytes (c10Chan.inBytes.take 4))) ∧
      wireWrites (Channel.handshake c10Chan).events = []) :=
  C10_override_still_validates_magic c10Chan overrideBytes rfl (by decide)

/-! ## C6, C7, C8, C9: message buffering and lookahead -/

/-- C6: `peek()` is idempotent — after a successful `peek()` returning `m`,
a second `peek()` with no intervening `consume()`/`try_auto_consume()`
returns the identical message from the unchanged state without touching the
transport, and the two calls together perform exactly one underlying frame
read whenever the message was not already buffered (and never more than
one). -/
theorem C6_peek_idempotent (ch : Channel) (m : Struct) (ch1 : Channel)
    (ev : List Event) (h : Channel.peek ch = ⟨.ok m, ch1, ev⟩) :
    Channel.peek ch1 = ⟨.ok m, ch1, []⟩ ∧
    frameReads ev ≤ 1 ∧
    (ch.buffered_msg = none → frameReads ev = 1) := by
  rcases peek_ok_inv ch m ch1 ev h with ⟨hb, rfl, rfl⟩ | ⟨hb, hd, rest, hm, hmt, rfl, rfl⟩
  · exact ⟨peek_of_buffered _ m hb, by simp [frameReads],
      fun hn => absurd hb (by simp [hn])⟩
  · exact ⟨peek_of_buffered _ m rfl, by simp [frameReads],
      fun _ => by simp [frameReads]⟩

/-- Witness for `C6_peek_idempotent` on a channel with a pending "Hello". -/
theorem C6_peek_idempotent_witness :
    Channel.peek peekChan1 = ⟨.ok helloMsg, peekChan1, []⟩ ∧
    frameReads [Event.readFrame helloMsg] ≤ 1 ∧
    (peekChan.buffered_msg = none → frameReads [Event.readFrame helloMsg] = 1) :=
  C6_peek_idempotent peekChan helloMsg peekChan1 [Event.readFrame helloMsg] rfl

/-- C7: on a channel with a logger, `consume()` after a successful `peek()`
returns the very message `peek()` returned without reading the transport
again; the buffered-message slot is empty afterwards, so a subsequent
`peek()` or `consume()` reads a new frame from the transport. -/
theorem C7_consume_after_peek (ch : Channel) (m : Struct) (ch1 : Channel)
    (ev : List Event) (hlog : ch.log = some ())
    (h : Channel.peek ch = ⟨.ok m, ch1, ev⟩) :
    (Channel.consume ch1).val = .ok m ∧
    (Channel.consume ch1).ch.buffered_msg = none ∧
    frameReads (Channel.consume ch1).events = 0 ∧
    (∀ hd rest, (Channel.consume ch1).ch.inMsgs = hd :: rest →
      (Channel.peek (Channel.consume ch1).ch).events = [.readFrame hd] ∧
      (Channel.consume (Channel.consume ch1).ch).events = [.readFrame hd]) := by
  have hb1 : ch1.buffered_msg = some m := peek_ok_buf ch m ch1 ev h
  have hl1 : ch1.log = some () := (peek_ok_log ch m ch1 ev h).trans hlog
  have hc : Channel.consume ch1 =
      ⟨.ok m, { ch1 with buffered_msg := none }, [.logCall]⟩ := by
    simp [Channel.consume, hb1, Channel.logDirect, hl1]
  rw [hc]
  refine ⟨rfl, rfl, rfl, ?_⟩
  intro hd rest hm
  simp only at hm
  constructor
  · simp [Channel.peek, Channel._consume, hm]
  · simp [Channel.consume, Channel._consume, hm]

/-- Witness for `C7_consume_after_peek` on a channel with two pending
frames. -/
theorem C7_consume_after_peek_witness :
    (Channel.consume peekChan1).val = .ok helloMsg ∧
    (Channel.consume peekChan1).ch.buffered_msg = none ∧
    frameReads (Channel.consume peekChan1).events = 0 ∧
    (∀ hd rest, (Channel.consume peekChan1).ch.inMsgs = hd :: rest →
      (Channel.peek (Channel.consume peekChan1).ch).events = [.readFrame hd] ∧
      (Channel.consume (Channel.consume peekChan1).ch).events = [.readFrame hd]) :=
  C7_consume_after_peek peekChan helloMsg peekChan1 [Event.readFrame helloMsg]
    rfl rfl

/-- C8: on a channel with a logger and a pending next message `m`: if
`m`'s name is in the whitelist, `try_auto_consume` clears the slot, sends
exactly one auto-reply frame — the dialect table's `get_auto_response m` —
through the struct send path (frame write + drain), and returns `true`; if
the name is not whitelisted it returns `false`, the state is unchanged and
the message stays buffered, available to a later `consume()`. -/
theorem C8_try_auto_consume (ch : Channel) (m : Struct) (ch1 : Channel)
    (ev : List Event) (wl : List String) (hlog : ch.log = some ())
    (h : Channel.peek ch = ⟨.ok m, ch1, ev⟩) :
    (m.name ∈ wl →
      Channel.try_auto_consume ch wl =
        ⟨.ok true, { ch1 with buffered_msg := none },
          ev ++ [.logCall, .logCall, .logCall,
            .writeFrame (ch1.bolt_protocol.get_auto_response m), .drain]⟩) ∧
    (m.name ∉ wl →
      Channel.try_auto_consume ch wl = ⟨.ok false, ch1, ev⟩ ∧
      ch1.buffered_msg = some m ∧
      (Channel.consume ch1).val = .ok m) := by
  have hb1 := peek_ok_buf ch m ch1 ev h
  have hl1 : ch1.log = some () := (peek_ok_log ch m ch1 ev h).trans hlog
  constructor
  · intro hin
    simp [Channel.try_auto_consume, h, hin, Channel.logDirect, hl1,
      Channel.send_struct]
  · intro hout
    refine ⟨by simp [Channel.try_auto_consume, h, hout], hb1, ?_⟩
    simp [Channel.consume, hb1, Channel.logDirect, hl1]

/-- Witness for `C8_try_auto_consume` with whitelist `{"Hello"}` against a
pending "Hello" message. -/
theorem C8_try_auto_consume_witness :
    (helloMsg.name ∈ ["Hello"] →
      Channel.try_auto_consume peekChan ["Hello"] =
        ⟨.ok true, { peekChan1 with buffered_msg := none },
          [Event.readFrame helloMsg] ++ [.logCall, .logCall, .logCall,
            .writeFrame (peekChan1.bolt_protocol.get_auto_response helloMsg),
            .drain]⟩) ∧
    (helloMsg.name ∉ ["Hello"] →
      Channel.try_auto_consume peekChan ["Hello"] =
        ⟨.ok false, peekChan1, [Event.readFrame helloMsg]⟩ ∧
      peekChan1.buffered_msg = some helloMsg ∧
      (Channel.consume peekChan1).val = .ok helloMsg) :=
  C8_try_auto_consume peekChan helloMsg peekChan1 [Event.readFrame helloMsg]
    ["Hello"] rfl rfl

/-- C9: the single-read invariant of the buffering state machine.  From a
state with an empty slot and a logger, a successful `peek()` performs
exactly one frame read; any following sequence of `peek()` calls and
non-matching `try_auto_consume` calls leaves the state untouched and emits
no events at all (each such `try_auto_consume` returning `false`); the
message is exactly the translation of the head frame of the transport with
the rest of the stream intact (nothing skipped, reordered or duplicated);
and the final committing call — `consume()` or a whitelisted
`try_auto_consume` (returning `true`) — delivers/commits that same message
with zero additional frame reads, leaving the slot empty. -/
theorem C9_single_read_invariant (ch : Channel) (m : Struct) (ch1 : Channel)
    (ev : List Event) (calls : List MidCall) (hlog : ch.log = some ())
    (hempty : ch.buffered_msg = none)
    (h : Channel.peek ch = ⟨.ok m, ch1, ev⟩)
    (hcalls : ∀ wl, MidCall.autoCall wl ∈ calls → m.name ∉ wl) :
    frameReads ev = 1 ∧
    runMids ch1 calls = (ch1, []) ∧
    (∀ wl, MidCall.autoCall wl ∈ calls →
      (Channel.try_auto_consume ch1 wl).val = .ok false) ∧
    (∃ hd, ch.inMsgs = hd :: ch1.inMsgs ∧
      m = ch.bolt_protocol.translate_structure hd) ∧
    ((Channel.consume ch1).val = .ok m ∧
      (Channel.consume ch1).ch.buffered_msg = none ∧
      frameReads (Channel.consume ch1).events = 0 ∧
      (Channel.consume ch1).ch.inMsgs = ch1.inMsgs) ∧
    (∀ wl, m.name ∈ wl →
      (Channel.try_auto_consume ch1 wl).val = .ok true ∧
      (Channel.try_auto_consume ch1 wl).ch.buffered_msg = none ∧
      frameReads (Channel.try_auto_consume ch1 wl).events = 0 ∧
      (Channel.try_auto_consume ch1 wl).ch.inMsgs = ch1.inMsgs) := by
  have hb1 := peek_ok_buf ch m ch1 ev h
  have hl1 : ch1.log = some () := (peek_ok_log ch m ch1 ev h).trans hlog
  have hpk1 : Channel.peek ch1 = ⟨.ok m, ch1, []⟩ := peek_of_buffered ch1 m hb1
  have hc : Channel.consume ch1 =
      ⟨.ok m, { ch1 with buffered_msg := none }, [.logCall]⟩ := by
    simp [Channel.consume, hb1, Channel.logDirect, hl1]
  rcases peek_ok_inv ch m ch1 ev h with ⟨hb, heq, _⟩ | ⟨_, hd, rest, hm, hmt, hch1, hev⟩
  · rw [hempty] at hb
    exact absurd hb (by simp)
  · subst hev
    refine ⟨by simp [frameReads], mids_fixed ch1 m hb1 calls hcalls, ?_, ?_, ?_, ?_⟩
    · intro wl hmem
      have hnotin := hcalls wl hmem
      simp [Channel.try_auto_consume, hpk1, hnotin]
    · refine ⟨hd, ?_, hmt⟩
      rw [hch1]
      exact hm
    · rw [hc]
      exact ⟨rfl, rfl, rfl, rfl⟩
    · intro wl hin
      have ht : Channel.try_auto_consume ch1 wl =
          ⟨.ok true, { ch1 with buffered_msg := none },
            [.logCall, .logCall, .logCall,
              .writeFrame (ch1.bolt_protocol.get_auto_response m), .drain]⟩ := by
        simp [Channel.try_auto_consume, hpk1, hin, Channel.logDirect, hl1,
          Channel.send_struct]
      rw [ht]
      exact ⟨rfl, rfl, rfl, rfl⟩

/-- Witness for `C9_single_read_invariant`: a pending "Hello" message,
followed by an extra `peek()` and a `try_auto_consume({"Run"})` that does
not match. -/
theorem C9_single_read_invariant_witness :
    frameReads [Event.readFrame helloMsg] = 1 ∧
    runMids peekChan1 [MidCall.peekCall, MidCall.autoCall ["Run"]] =
      (peekChan1, []) ∧
    (∀ wl, MidCall.autoCall wl ∈ [MidCall.peekCall, MidCall.autoCall ["Run"]] →
      (Channel.try_auto_consume peekChan1 wl).val = .ok false) ∧
    (∃ hd, peekChan.inMsgs = hd :: peekChan1.inMsgs ∧
      helloMsg = peekChan.bolt_protocol.translate_structure hd) ∧
    ((Channel.consume peekChan1).val = .ok helloMsg ∧
      (Channel.consume peekChan1).ch.buffered_msg = none ∧
      frameReads (Channel.consume peekChan1).events = 0 ∧
      (Channel.consume peekChan1).ch.inMsgs = peekChan1.inMsgs) ∧
    (∀ wl, helloMsg.name ∈ wl →
      (Channel.try_auto_consume peekChan1 wl).val = .ok true ∧
      (Channel.try_auto_consume peekChan1 wl).ch.buffered_msg = none ∧
      frameReads (Channel.try_auto_consume peekChan1 wl).events = 0 ∧
      (Channel.try_auto_consume peekChan1 wl).ch.inMsgs = peekChan1.inMsgs) :=
  C9_single_read_invariant peekChan helloMsg peekChan1 [Event.readFrame helloMsg]
    [MidCall.peekCall, MidCall.autoCall ["Run"]] rfl rfl rfl
    (by
      intro wl hw
      simp only [List.mem_cons, List.not_mem_nil, or_false] at hw
      rcases hw with hw | hw
      · exact absurd hw (by simp)
      · cases hw
        decide)
